import Mathlib

/-!
Shallow embedding of the game-analysis engine of the chesscom-analyzer
repository (src/analyzer/analyzer.py), together with theorems settling the
frozen claims about its specification.

Modelling conventions:
* Moves are abstract tokens (Nat); a board is the list of moves pushed onto
  it so far, starting from the standard initial position, so the side to
  move is White exactly when the number of pushed moves is even.
* The evaluation oracle (engine.analyse followed by
  info.score.relative.score with mate_score set) is a function from a board
  to Option Int: none models the engine call raising an exception, some v
  the relative score already converted to an integer.
* Python floats that only ever hold exact decimal values in the analyzed
  code paths (limit_eval_drop, averages) are modelled as rationals.
* File loading and PGN parsing are external collaborators; a corpus is the
  list of per-file parse results, none modelling chess.pgn.read_game
  returning no game for an unreadable file.
-/

/- ### Clock parsing

Embeds the regular-expression search used at analyzer.py lines 77-81 and
311-316: re.search of the pattern percent-clk, one or more whitespace,
one or more digits, a colon, one or more digits, an optional fractional
part. re.search returns the leftmost position at which the whole pattern
matches; greedy digit and whitespace runs are maximal runs because the
following required character class is disjoint. -/

/-- Value of a list of decimal digit characters, as Python int() of the
matched group. -/
def digitsToNat (ds : List Char) : Nat :=
  ds.foldl (fun n c => 10 * n + (c.toNat - 48)) 0

/-- Whitespace characters matched by the regex whitespace class on ASCII
input: space, tab, newline, carriage return, vertical tab, form feed. -/
def isSpaceChar (c : Char) : Bool :=
  c = ' ' || c = '\t' || c = '\n' || c = '\r' || c.toNat = 11 || c.toNat = 12

/-- When the list starts with the four characters of the clock token,
returns the remainder after the token. -/
def startsWithClk : List Char → Option (List Char)
  | '%' :: 'c' :: 'l' :: 'k' :: rest => some rest
  | _ => none

/-- Matches the part of the pattern after the literal token: one or more
whitespace characters, then the minutes digits, a colon, the seconds
digits. Returns the two numeric groups. The optional fractional suffix of
the pattern constrains nothing, so it is not represented. -/
def matchAfterClk (cs : List Char) : Option (Nat × Nat) :=
  let ws := cs.takeWhile isSpaceChar
  let afterWs := cs.dropWhile isSpaceChar
  if ws.isEmpty then none
  else
    let ds1 := afterWs.takeWhile Char.isDigit
    let afterDs1 := afterWs.dropWhile Char.isDigit
    if ds1.isEmpty then none
    else
      match afterDs1 with
      | ':' :: afterColon =>
        let ds2 := afterColon.takeWhile Char.isDigit
        if ds2.isEmpty then none
        else some (digitsToNat ds1, digitsToNat ds2)
      | _ => none

/-- Leftmost search for the full pattern: at each position, if the clock
token starts here and the rest of the pattern matches after it, succeed;
otherwise continue one position to the right. -/
def searchClk : List Char → Option (Nat × Nat)
  | [] => none
  | c :: cs =>
    match startsWithClk (c :: cs) with
    | some rest =>
      match matchAfterClk rest with
      | some r => some r
      | none => searchClk cs
    | none => searchClk cs

/-- Whether the clock token occurs anywhere in the list; the code guards
the regex search with a substring test, which is subsumed by the search
itself since the pattern begins with the literal token. -/
def containsClk : List Char → Bool
  | [] => false
  | c :: cs => (startsWithClk (c :: cs)).isSome || containsClk cs

/-- Clock parsing as performed at analyzer.py lines 77-81 and 311-316:
minutes times sixty plus seconds from the matched groups, sub-second
precision discarded; absent when the pattern does not match. -/
def parse_clock (s : String) : Option Nat :=
  (searchClk s.data).map (fun mz => mz.1 * 60 + mz.2)

/- ### Data model

A parsed game record: the primary line as an ordered list of plies, each
carrying the abstract move token, the raw comment, and the answers of the
external board service for the position before the move (legal-move count,
check flag, per-side unweighted material sums). The header date is the
result of the strptime parse of the Date header: none when missing or
unparsable. -/

structure GamePly where
  mv : Nat
  comment : String
  legalMoves : Nat
  inCheck : Bool
  whiteMaterial : Nat
  blackMaterial : Nat
deriving DecidableEq, Repr

structure GameRecord where
  date : Option Nat
  plies : List GamePly
deriving DecidableEq, Repr

/-- Outcome of a report method: either the explicit no-data signal the
method logs before returning early, or the rendered report payload. -/
inductive Outcome (α : Type) where
  | noData : Outcome α
  | report : α → Outcome α
deriving DecidableEq, Repr

/- ### Time Analysis (find_time_consuming_positions, lines 25-130) -/

/-- One entry of the time_spent list built at lines 86-97. -/
structure TimeRec where
  secondsSpent : Int
  legalMoves : Nat
  inCheck : Bool
  materialBalance : Int
  isEndgame : Bool
deriving DecidableEq, Repr

/-- The per-game walk of lines 52-104: for each ply whose comment yields a
clock sample, compute spent as previous minus current once a previous
sample exists, record it together with the board-service data when spent
is strictly positive, and store the current sample as the new previous
value in every case. Plies without a parsable clock sample leave the
previous value untouched. -/
def timeWalk : List GamePly → Option Nat → List TimeRec
  | [], _ => []
  | p :: rest, prev =>
    match parse_clock p.comment with
    | none => timeWalk rest prev
    | some cur =>
      match prev with
      | none => timeWalk rest (some cur)
      | some pv =>
        let spent : Int := (pv : Int) - (cur : Int)
        if 0 < spent then
          { secondsSpent := spent
            legalMoves := p.legalMoves
            inCheck := p.inCheck
            materialBalance := (p.whiteMaterial : Int) - (p.blackMaterial : Int)
            isEndgame := decide (p.whiteMaterial + p.blackMaterial ≤ 14) }
            :: timeWalk rest (some cur)
        else timeWalk rest (some cur)

/-- Corpus pass of lines 37-46: unreadable files (no game) are skipped,
each parsed game is walked with its own fresh previous value, bounded to
the ply cutoff of 200 iterations (line 52). -/
def time_records (files : List (Option GameRecord)) : List TimeRec :=
  files.foldl
    (fun acc g? =>
      match g? with
      | none => acc
      | some g => acc ++ timeWalk (g.plies.take 200) none)
    []

/-- Stable descending insertion by seconds spent, modelling the stable
sorted call with reverse ordering at line 110. -/
def insertBySpent (x : TimeRec) : List TimeRec → List TimeRec
  | [] => [x]
  | y :: ys => if y.secondsSpent < x.secondsSpent then x :: y :: ys else y :: insertBySpent x ys

def sortBySpentDesc (l : List TimeRec) : List TimeRec :=
  l.foldl (fun acc x => insertBySpent x acc) []

/-- Report of lines 106-130: with no samples anywhere in the corpus the
method logs a warning and returns (the explicit no-data outcome);
otherwise it reports the top-N ranked records and the three corpus-wide
ratios, whose shared denominator is the number of records. -/
def find_time_consuming_positions (files : List (Option GameRecord)) (topN : Nat) :
    Outcome (List TimeRec × ℚ × ℚ × ℚ) :=
  let ts := time_records files
  if ts.isEmpty then Outcome.noData
  else
    let total : ℚ := (ts.length : ℚ)
    Outcome.report
      ((sortBySpentDesc ts).take topN,
       ((ts.filter (fun x => decide (x.legalMoves ≤ 10))).length : ℚ) / total,
       ((ts.filter (fun x => x.inCheck)).length : ℚ) / total,
       ((ts.filter (fun x => x.isEndgame)).length : ℚ) / total)

/-- Description, in the words of the specification, of the recorded
spends: every adjacent pair of successfully parsed samples contributes
previous minus current exactly when that difference is strictly
positive. -/
def adjacentDrops : List Nat → List Int
  | p :: c :: rest =>
    (if 0 < (p : Int) - (c : Int) then [(p : Int) - (c : Int)] else [])
      ++ adjacentDrops (c :: rest)
  | _ => []

/- ### Evaluation scores (find_common_mistakes, lines 132-253) -/

/-- Answer of the external evaluation oracle before integer conversion:
either a centipawn score or a mate-in-n indicator (n positive: the side to
move mates; n negative: the side to move is mated). -/
inductive EngineScore where
  | cp : Int → EngineScore
  | mate : Int → EngineScore
deriving DecidableEq, Repr

/-- Integer conversion applied by the analyzer through the score method of
the python-chess library with an explicit mate sentinel: a centipawn score
is returned unchanged, mate in n becomes sentinel minus n for positive n
and negative sentinel minus n otherwise. The analyzer always passes the
sentinel 10000 (lines 192, 212, 277, 365, 387). -/
def scoreWithMate (mateScore : Int) : EngineScore → Int
  | EngineScore.cp x => x
  | EngineScore.mate n => if 0 < n then mateScore - n else -mateScore - n

/-- The conversion with the sentinel value 10000 actually used by every
oracle query in the source. -/
def relativeScore (s : EngineScore) : Int :=
  scoreWithMate 10000 s

/-- Rendering of an integer centipawn value as the two-decimal pawn string
produced by the format string at line 164. -/
def twoDecimalString (v : Int) : String :=
  (if v < 0 then "-" else "")
    ++ toString (v.natAbs / 100) ++ "."
    ++ (if v.natAbs % 100 < 10 then "0" else "") ++ toString (v.natAbs % 100)

/-- format_eval of lines 157-164: missing scores render as a question
mark, scores at or above 9000 as the mate-for-White marker, at or below
minus 9000 as the mate-for-Black marker, anything else as a pawn float
with two decimals. -/
def format_eval : Option Int → String
  | none => "?"
  | some v =>
    if 9000 ≤ v then "#Mate for White"
    else if v ≤ -9000 then "#Mate for Black"
    else twoDecimalString v

/- ### Mistake Detection walk -/

/-- The eval drop computed at line 217: the post-move relative score is
subtracted from the pre-move relative score as reported, without any
perspective normalization. -/
def evalDropCode (evalBefore evalAfter : Int) : Int :=
  evalBefore - evalAfter

/-- Modelled from the spec: the normalized eval drop required by section
4.4 of the specification, which is not present in the source. The oracle
reports scores relative to the side to move, so the post-move score,
relative to the opponent, is negated before differencing. -/
def evalDropNormalized (evalBefore evalAfter : Int) : Int :=
  evalBefore - (-evalAfter)

/-- State of the while loop of lines 185-234: the index of the node whose
first variation is read next, the board as the list of pushed moves, the
move counter, and the mistakes collected so far (move counter value and
eval drop of each qualifying record, in encounter order). -/
structure MDState where
  idx : Nat
  board : List Nat
  moveNumber : Nat
  mistakes : List (Nat × Int)
deriving DecidableEq, Repr

/-- The while loop of lines 185-234, fuel-bounded. With White to move the
pre-move oracle query runs first; a failure breaks out of the loop,
returning the state (mistakes retained). Otherwise the move is pushed and
the post-move query runs; a failure triggers the continue at line 214,
which skips the node advancement at line 234, so the same node is read
again on the next iteration (with the board already advanced). On success
the drop of line 217 is compared against the threshold and the node
advances. With Black to move the move is pushed and the node advances
without oracle queries. -/
def mdLoop (oracle : List Nat → Option Int) (limit : ℚ) (game : List Nat) :
    Nat → MDState → MDState
  | 0, st => st
  | fuel + 1, st =>
    match game[st.idx]? with
    | none => st
    | some mv =>
      let mn := st.moveNumber + 1
      if st.board.length % 2 = 0 then
        match oracle st.board with
        | none => { st with moveNumber := mn }
        | some evalBefore =>
          let board1 := st.board ++ [mv]
          match oracle board1 with
          | none =>
            mdLoop oracle limit game fuel { st with board := board1, moveNumber := mn }
          | some evalAfter =>
            let drop := evalDropCode evalBefore evalAfter
            let recs :=
              if limit < (drop : ℚ) then st.mistakes ++ [(mn, drop)] else st.mistakes
            mdLoop oracle limit game fuel
              { idx := st.idx + 1, board := board1, moveNumber := mn, mistakes := recs }
      else
        mdLoop oracle limit game fuel
          { st with idx := st.idx + 1, board := st.board ++ [mv], moveNumber := mn }

/-- Corpus pass of lines 166-234: unreadable files are skipped (line 173),
each parsed game is walked with a fresh loop state whose mistake list is
the list collected so far, so records from prior games survive a break
inside a later game. Two fuel units per ply plus one cover every
iteration, since a non-advancing iteration is always followed by an
advancing one. -/
def find_common_mistakes (oracle : List Nat → Option Int) (limit : ℚ)
    (files : List (Option GameRecord)) : List (Nat × Int) :=
  files.foldl
    (fun acc g? =>
      match g? with
      | none => acc
      | some g =>
        let moves := g.plies.map (fun p => p.mv)
        (mdLoop oracle limit moves (2 * moves.length + 1)
          { idx := 0, board := [], moveNumber := 0, mistakes := acc }).mistakes)
    []

/-- Stable descending insertion by eval drop, for the top-blunder ranking
of line 240. -/
def insertByDrop (x : Nat × Int) : List (Nat × Int) → List (Nat × Int)
  | [] => [x]
  | y :: ys => if y.2 < x.2 then x :: y :: ys else y :: insertByDrop x ys

def sortByDropDesc (l : List (Nat × Int)) : List (Nat × Int) :=
  l.foldl (fun acc x => insertByDrop x acc) []

/-- Report of lines 236-253: with no mistakes the method logs the explicit
no-mistakes message and returns; otherwise it reports the five largest
drops. -/
def find_common_mistakes_report (oracle : List Nat → Option Int) (limit : ℚ)
    (files : List (Option GameRecord)) : Outcome (List (Nat × Int)) :=
  let ms := find_common_mistakes oracle limit files
  if ms.isEmpty then Outcome.noData
  else Outcome.report ((sortByDropDesc ms).take 5)

/- ### Opening Issue Detection (analyze_opening_issues, lines 255-288) -/

/-- Per-game walk of lines 271-285: every move is pushed regardless of
side, bounded to the configured move limit; each oracle query runs outside
any exception handler, so a failure propagates (error). Once a previous
score exists, a drop of more than one unit counts the resulting position
(the board after the push). -/
def openingGameWalk (oracle : List Nat → Option Int) (moveLimit : Nat) :
    List Nat → List Nat → Option Int → Nat → List (List Nat) →
    Except Unit (List (List Nat))
  | [], _, _, _, acc => Except.ok acc
  | mv :: rest, board, prevEval, cnt, acc =>
    if cnt < moveLimit then
      let board1 := board ++ [mv]
      match oracle board1 with
      | none => Except.error ()
      | some score =>
        let acc1 :=
          match prevEval with
          | some p => if 1 < p - score then acc ++ [board1] else acc
          | none => acc
        openingGameWalk oracle moveLimit rest board1 (some score) (cnt + 1) acc1
    else Except.ok acc

/-- Corpus pass of lines 262-285. Unlike every other report method, there
is no guard for a file whose record is unreadable: the code reads the
board attribute of the missing game (line 267), raising an attribute error
that propagates out of the method, so such a file aborts the whole report
(error) instead of being skipped. -/
def openingCorpus (oracle : List Nat → Option Int) (moveLimit : Nat) :
    List (Option GameRecord) → List (List Nat) → Except Unit (List (List Nat))
  | [], acc => Except.ok acc
  | none :: _, _ => Except.error ()
  | some g :: rest, acc =>
    match openingGameWalk oracle moveLimit (g.plies.map (fun p => p.mv)) [] none 0 acc with
    | Except.error e => Except.error e
    | Except.ok acc1 => openingCorpus oracle moveLimit rest acc1

/-- Distinct keys in first-occurrence order, as counter insertion order. -/
def distinctKeys (occ : List (List Nat)) : List (List Nat) :=
  occ.foldl (fun acc k => if k ∈ acc then acc else acc ++ [k]) []

def insertByCount (x : List Nat × Nat) : List (List Nat × Nat) → List (List Nat × Nat)
  | [] => [x]
  | y :: ys => if y.2 < x.2 then x :: y :: ys else y :: insertByCount x ys

def sortByCountDesc (l : List (List Nat × Nat)) : List (List Nat × Nat) :=
  l.foldl (fun acc x => insertByCount x acc) []

/-- The counter ranking of line 287: the n keys with the largest counts,
ties in insertion order. -/
def mostCommonKeys (occ : List (List Nat)) (n : Nat) : List (List Nat × Nat) :=
  (sortByCountDesc
    ((distinctKeys occ).map (fun k => (k, (occ.filter (fun x => x == k)).length)))).take n

/-- Full method of lines 255-288. The printing loop at lines 287-288 runs
unconditionally: there is no empty-corpus or empty-counter branch, so on
success the outcome is always a report (possibly with zero entries), never
the explicit no-data signal the other report methods produce. -/
def analyze_opening_issues (oracle : List Nat → Option Int) (moveLimit : Nat)
    (files : List (Option GameRecord)) : Except Unit (Outcome (List (List Nat × Nat))) :=
  match openingCorpus oracle moveLimit files [] with
  | Except.error e => Except.error e
  | Except.ok occ => Except.ok (Outcome.report (mostCommonKeys occ 5))

/- ### Total time summarization (summarize_total_time_played, lines 290-324) -/

/-- One step of the loop of lines 308-319 on a successfully parsed clock
sample: the truthiness test of line 317 requires the stored previous value
to be present and nonzero before the comparison of current against
previous runs; the parsed value always becomes the new previous value. -/
def timeStep : Option Nat × Nat → Nat → Option Nat × Nat
  | (prev, total), cur =>
    let contributes : Bool :=
      match prev with
      | none => false
      | some p => (p != 0) && decide (cur < p)
    (some cur, if contributes then total + (prev.getD 0 - cur) else total)

/-- Accumulated seconds over the successfully parsed samples of one game
(previous value reset per game, line 308). -/
def totalSeconds (samples : List Nat) : Nat :=
  (samples.foldl timeStep (none, 0)).2

/-- Per-game seconds from the raw comments of the full main line (this
method walks game.mainline with no ply cutoff). -/
def game_total_seconds (comments : List String) : Nat :=
  totalSeconds (comments.filterMap parse_clock)

/-- Corpus pass of lines 302-319: unreadable files skipped (line 305),
per-game totals accumulate into one corpus total. -/
def summarize_total_time_played (files : List (Option GameRecord)) : Nat :=
  files.foldl
    (fun total g? =>
      match g? with
      | none => total
      | some g => total + game_total_seconds (g.plies.map (fun p => p.comment)))
    0

/- ### Temporal Aggregation (analyze_progress_over_time, lines 326-418) -/

/-- The qualification, clamp and accumulation step of lines 394-398: a
drop strictly greater than the threshold times one hundred is clamped to
at most 1000 units and added to the game total, incrementing the blunder
count; any other drop is discarded. -/
def progress_step (limit : ℚ) (bd : Nat × Int) (drop : Int) : Nat × Int :=
  if limit * 100 < (drop : ℚ) then (bd.1 + 1, bd.2 + min drop 1000) else bd

/-- Per-game accumulation of blunder count and clamped total drop over a
sequence of candidate drops. -/
def game_progress (limit : ℚ) (drops : List Int) : Nat × Int :=
  drops.foldl (progress_step limit) (0, 0)

/-- State of the loop of lines 359-400. -/
structure PState where
  idx : Nat
  board : List Nat
  blunders : Nat
  totalDrop : Int
deriving DecidableEq, Repr

/-- The while loop of lines 359-400, fuel-bounded, with the board service
reporting every replayed move legal (legality and replay belong to the
external rules service). A pre-move oracle failure breaks out of the
loop; a post-move oracle failure, and likewise the mate filter of lines
391-392, trigger a continue that skips the node advancement of line 400,
re-reading the same node with the board already advanced. With Black to
move the move is pushed and the node advances without queries. -/
def progressLoop (oracle : List Nat → Option Int) (limit : ℚ) (game : List Nat) :
    Nat → PState → PState
  | 0, st => st
  | fuel + 1, st =>
    match game[st.idx]? with
    | none => st
    | some mv =>
      if st.board.length % 2 = 0 then
        match oracle st.board with
        | none => st
        | some evalBefore =>
          let board1 := st.board ++ [mv]
          match oracle board1 with
          | none => progressLoop oracle limit game fuel { st with board := board1 }
          | some evalAfter =>
            if 9000 ≤ evalBefore.natAbs ∨ 9000 ≤ evalAfter.natAbs then
              progressLoop oracle limit game fuel { st with board := board1 }
            else
              let bd := progress_step limit (st.blunders, st.totalDrop)
                  (evalBefore - evalAfter)
              progressLoop oracle limit game fuel
                { idx := st.idx + 1, board := board1, blunders := bd.1, totalDrop := bd.2 }
      else
        progressLoop oracle limit game fuel
          { st with idx := st.idx + 1, board := st.board ++ [mv] }

/-- Per-day aggregate of lines 339 and 402-404. -/
structure DayStat where
  games : Nat
  blunders : Nat
  totalEvalDrop : Int
deriving DecidableEq, Repr

/-- Merge of one finished game into the day-keyed aggregate (lines
402-404), with defaultdict insertion order. -/
def daily_bump (d : Nat) (gb : Nat) (gd : Int) :
    List (Nat × DayStat) → List (Nat × DayStat)
  | [] => [(d, { games := 1, blunders := gb, totalEvalDrop := gd })]
  | (k, s) :: rest =>
    if k = d then
      (k, { games := s.games + 1, blunders := s.blunders + gb,
            totalEvalDrop := s.totalEvalDrop + gd }) :: rest
    else (k, s) :: daily_bump d gb gd rest

/-- Corpus pass of lines 341-404: unreadable files skipped (line 345),
games with a missing or unparsable date header skipped for this report
only (lines 348-352), every other game walked and merged under its
date. -/
def progress_daily (oracle : List Nat → Option Int) (limit : ℚ)
    (files : List (Option GameRecord)) : List (Nat × DayStat) :=
  files.foldl
    (fun acc g? =>
      match g? with
      | none => acc
      | some g =>
        match g.date with
        | none => acc
        | some d =>
          let moves := g.plies.map (fun p => p.mv)
          let st := progressLoop oracle limit moves (2 * moves.length + 1)
              { idx := 0, board := [], blunders := 0, totalDrop := 0 }
          daily_bump d st.blunders st.totalDrop acc)
    []

/-- The per-day average of line 415: total drop over the larger of the
blunder count and one, then over one hundred to express pawns. -/
def day_avg (s : DayStat) : ℚ :=
  ((s.totalEvalDrop : ℚ) / (max s.blunders 1 : ℚ)) / 100

def insertByDayAsc (x : Nat × DayStat) : List (Nat × DayStat) → List (Nat × DayStat)
  | [] => [x]
  | y :: ys => if x.1 < y.1 then x :: y :: ys else y :: insertByDayAsc x ys

def sortByDayAsc (l : List (Nat × DayStat)) : List (Nat × DayStat) :=
  l.foldl (fun acc x => insertByDayAsc x acc) []

/-- Report of lines 406-416: with no dated games the method logs the
explicit warning and returns; otherwise one line per day in ascending date
order with the average drop. -/
def analyze_progress_over_time (oracle : List Nat → Option Int) (limit : ℚ)
    (files : List (Option GameRecord)) : Outcome (List (Nat × DayStat × ℚ)) :=
  let ds := progress_daily oracle limit files
  if ds.isEmpty then Outcome.noData
  else Outcome.report ((sortByDayAsc ds).map (fun ks => (ks.1, ks.2, day_avg ks.2)))

/- ### A full analysis session (main.py lines 43-47) -/

/-- The sequence of report methods one session runs over one corpus and
one oracle, as invoked from the entry point. -/
def analysis_session (oracle : List Nat → Option Int) (limit : ℚ)
    (topN moveLimit : Nat) (files : List (Option GameRecord)) :
    Outcome (List TimeRec × ℚ × ℚ × ℚ) × Outcome (List (Nat × Int)) ×
      Except Unit (Outcome (List (List Nat × Nat))) × Nat ×
      Outcome (List (Nat × DayStat × ℚ)) :=
  (find_time_consuming_positions files topN,
   find_common_mistakes_report oracle limit files,
   analyze_opening_issues oracle moveLimit files,
   summarize_total_time_played files,
   analyze_progress_over_time oracle limit files)

/- ### Concrete fixtures used by the theorems -/

/-- A ply with an abstract move token and no other data. -/
def mkPly (m : Nat) : GamePly := ⟨m, "", 0, false, 0, 0⟩

/-- A ply carrying only a comment. -/
def clkPly (c : String) : GamePly := ⟨0, c, 0, false, 0, 0⟩

/-- A one-ply game (White plays one move). -/
def gOnePly : GameRecord := ⟨none, [mkPly 0]⟩

/-- A two-ply game with distinct move tokens. -/
def gTwoPly : GameRecord := ⟨none, [mkPly 0, mkPly 1]⟩

/-- A three-ply game with distinct move tokens. -/
def gThreePly : GameRecord := ⟨none, [mkPly 5, mkPly 6, mkPly 7]⟩

/-- A game with two clock comments six hundred and five hundred eighty
seconds apart. -/
def gClock : GameRecord := ⟨none, [clkPly "%clk 10:00", clkPly "%clk 9:40"]⟩

/-- A five-file corpus whose second file is unreadable. -/
def corpus5 : List (Option GameRecord) := [some gClock, none, some gClock, some gClock, some gClock]

/-- A dated three-ply game for the temporal-aggregation example. -/
def gDated : GameRecord := ⟨some 7, [mkPly 1, mkPly 2, mkPly 3]⟩

/-- Oracle for the normalization example: plus fifty before the single
White move (relative to White, the side to move), plus one hundred twenty
after it (relative to Black, now the side to move, which is minus one
hundred twenty from the fixed White perspective). -/
def oracleC1 : List Nat → Option Int :=
  fun b => if b = [] then some 50 else if b = [0] then some 120 else none

/-- Oracle failing exactly on the post-move query of the first ply of the
two-ply game. -/
def oracleC2 : List Nat → Option Int :=
  fun b => if b = [] then some 0 else if b = [0, 0] then some 7
    else if b = [0, 0, 1] then some 7 else none

/-- Oracle producing a qualifying drop on the first ply of each game and
failing on the pre-move query of the third ply of the three-ply game. -/
def oracleC2b : List Nat → Option Int :=
  fun b => if b = [] then some 300 else if b = [0] then some 0
    else if b = [5] then some 0 else none

/-- Oracle producing drops of three hundred and twelve hundred on the two
White plies of the dated game. -/
def oracleC5 : List Nat → Option Int :=
  fun b => if b = [] then some 300 else if b = [1] then some 0
    else if b = [1, 2] then some 1300 else if b = [1, 2, 3] then some 100 else none

/-- Two syntactically distinct but pointwise equal oracles for the
determinism witness. -/
def oracleW1 : List Nat → Option Int := fun _ => some 0

def oracleW2 : List Nat → Option Int := fun _ => some 0

/- ### Helper lemmas -/

theorem searchClk_eq_none_of_not_containsClk :
    ∀ cs : List Char, containsClk cs = false → searchClk cs = none := by
  intro cs
  induction cs with
  | nil => intro _; rfl
  | cons c cs ih =>
    intro h
    rw [containsClk] at h
    rcases Bool.or_eq_false_iff.mp h with ⟨h1, h2⟩
    rw [searchClk]
    cases hs : startsWithClk (c :: cs) with
    | none => exact ih h2
    | some rest => rw [hs] at h1; simp [Option.isSome] at h1

theorem timeWalk_spends_some (plies : List GamePly) :
    ∀ p : Nat, (timeWalk plies (some p)).map (fun r => r.secondsSpent)
      = adjacentDrops (p :: plies.filterMap (fun q => parse_clock q.comment)) := by
  induction plies with
  | nil => intro p; rfl
  | cons q rest ih =>
    intro p
    rw [timeWalk, List.filterMap_cons]
    cases hq : parse_clock q.comment with
    | none => exact ih p
    | some c =>
      rw [adjacentDrops]
      by_cases hpos : 0 < (p : Int) - (c : Int)
      · simp only [hpos, if_pos, List.map_cons, ih c, List.singleton_append]
      · simp only [hpos, if_neg, not_false_iff, ih c, List.nil_append]

theorem timeWalk_spends_none (plies : List GamePly) :
    (timeWalk plies none).map (fun r => r.secondsSpent)
      = adjacentDrops (plies.filterMap (fun q => parse_clock q.comment)) := by
  induction plies with
  | nil => rfl
  | cons q rest ih =>
    rw [timeWalk, List.filterMap_cons]
    cases hq : parse_clock q.comment with
    | none => exact ih
    | some c => exact timeWalk_spends_some rest c

theorem progress_step_three_halves (bd : Nat × Int) (d : Int) :
    progress_step (3/2) bd d =
      if (150 : ℚ) < (d : ℚ) then (bd.1 + 1, bd.2 + min d 1000) else bd := by
  have h : (3/2 : ℚ) * 100 = 150 := by norm_num
  rw [progress_step, h]

theorem game_progress_go (limit : ℚ) :
    ∀ (drops : List Int) (bd : Nat × Int),
      drops.foldl (progress_step limit) bd
        = (bd.1 + (drops.filter (fun d : Int => decide (limit * 100 < (d : ℚ)))).length,
           bd.2 + ((drops.filter (fun d : Int => decide (limit * 100 < (d : ℚ)))).map
             (fun d : Int => min d 1000)).sum) := by
  intro drops
  induction drops with
  | nil => intro bd; simp
  | cons d rest ih =>
    intro bd
    rw [List.foldl_cons, ih]
    by_cases h : limit * 100 < (d : ℚ)
    · simp only [progress_step, h, if_true, List.filter_cons, decide_eq_true_eq,
        if_pos, List.length_cons, List.map_cons, List.sum_cons, Prod.mk.injEq]
      constructor <;> omega
    · simp [progress_step, h, List.filter_cons]

/- ### Claims -/

/-- C1: the claim states that in Mistake Detection the post-move oracle
score, reported relative to the opponent, is negated before computing
eval_drop, so that the normalized pair of plus fifty and minus one hundred
twenty yields a drop of one hundred seventy, qualifying under threshold
one hundred fifty and not under two hundred. The code at line 217
subtracts the reported relative scores without negation: on the one-ply
game where the oracle reports plus fifty before the move and plus one
hundred twenty after it (relative to the side to move), the code computes
a drop of minus seventy and records no mistake even under threshold one
hundred fifty, while the normalized drop prescribed by the specification
is one hundred seventy, which qualifies under one hundred fifty and not
under two hundred. -/
theorem c1_perspective_normalization_missing :
    find_common_mistakes oracleC1 150 [some gOnePly] = [] ∧
    evalDropCode 50 120 = -70 ∧
    ¬ ((150 : ℚ) < ((evalDropCode 50 120 : Int) : ℚ)) ∧
    evalDropNormalized 50 120 = 170 ∧
    ((150 : ℚ) < ((evalDropNormalized 50 120 : Int) : ℚ)) ∧
    ¬ ((200 : ℚ) < ((evalDropNormalized 50 120 : Int) : ℚ)) := by
  refine ⟨by decide, by decide, by decide, by decide, by decide, by decide⟩

/-- C2: the claim states that a pre-move oracle failure aborts the rest of
that game while retaining all collected mistakes, and that a post-move
oracle failure skips exactly that sample and continues correctly with the
next ply. The second half fails on the code: the continue at line 214
skips the node advancement at line 234, so after a post-move failure on
the first ply of the two-ply game the loop processes the same node again,
pushing its move a second time (final board holds three moves, the first
one twice) and counting the ply twice (final move counter three, not two).
The retention half does hold: with the oracle failing on the pre-move
query of the third ply of the second game, the qualifying mistakes of the
first game and of the first ply of the second game are all retained. -/
theorem c2_postmove_failure_reprocesses_ply :
    mdLoop oracleC2 150 [0, 1] 5 ⟨0, [], 0, []⟩ = ⟨2, [0, 0, 1], 3, []⟩ ∧
    find_common_mistakes oracleC2b 150 [some gOnePly, some gThreePly]
      = [(1, 300), (1, 300)] := by
  refine ⟨by decide, by decide⟩

/-- C3: the claim states that a file whose record is unreadable is skipped
by every report method, including opening-issue detection, with complete
results for the remaining games. The other methods do skip (the four
readable games of the five-file corpus all contribute), but
analyze_opening_issues has no such guard: it dereferences the missing game
at line 267 and the resulting attribute error aborts the entire report. -/
theorem c3_opening_issues_crash_on_unreadable_file :
    analyze_opening_issues (fun _ => some 0) 10 corpus5 = Except.error () ∧
    (time_records corpus5).map (fun r => r.secondsSpent) = [20, 20, 20, 20] ∧
    summarize_total_time_played corpus5 = 80 ∧
    find_common_mistakes (fun _ => some 0) 150 corpus5 = [] := by
  refine ⟨rfl, by decide, by decide, by decide⟩

/-- C4 counterexample: the claim states that a mate score is clamped to
the sentinel magnitude nine thousand before arithmetic, a mate for White
being treated as plus nine thousand. The conversion actually applied uses
the sentinel ten thousand: a mate for White in one is treated as nine
thousand nine hundred ninety nine, not nine thousand. -/
theorem c4_counterexample_mate_sentinel :
    relativeScore (EngineScore.mate 1) = 9999 ∧ ((9999 : Int) ≠ 9000) := by
  refine ⟨by decide, by decide⟩

/-- C4 amended: a mate-for-White score in n is converted, before any
arithmetic, to the value ten thousand minus n (the analyzer passes the
sentinel ten thousand to the score conversion), and for every realistic
mate distance up to one thousand the report renders that value as the
mate-for-White indication rather than a pawn-value float, because the
rendering threshold of format_eval is nine thousand. -/
theorem c4_mate_sentinel :
    ∀ n : Int, 0 < n → n ≤ 1000 →
      relativeScore (EngineScore.mate n) = 10000 - n ∧
      format_eval (some (relativeScore (EngineScore.mate n))) = "#Mate for White" := by
  intro n h1 h2
  have hs : relativeScore (EngineScore.mate n) = 10000 - n := by
    simp [relativeScore, scoreWithMate, h1]
  refine ⟨hs, ?_⟩
  rw [hs]
  have h3 : (9000 : Int) ≤ 10000 - n := by omega
  simp [format_eval, h3]

theorem c4_mate_sentinel_witness :
    (0 : Int) < 1 ∧ (1 : Int) ≤ 1000 ∧
      relativeScore (EngineScore.mate 1) = 10000 - 1 ∧
      format_eval (some (relativeScore (EngineScore.mate 1))) = "#Mate for White" :=
  ⟨by decide, by decide, (c4_mate_sentinel 1 (by decide) (by decide)).1,
    (c4_mate_sentinel 1 (by decide) (by decide)).2⟩

/-- C5: in Temporal Aggregation every qualifying drop (strictly above the
threshold times one hundred) is clamped to at most one thousand units
before being added, the per-game accumulator being exactly a count of
qualifying drops and a sum of their clamped values; the per-day average is
the day total over the larger of the blunder count and one, over one
hundred. A day consisting of the dated game whose two White plies produce
drops of three hundred and twelve hundred totals thirteen hundred over two
blunders, reported as six and a half pawn-equivalent units. -/
theorem c5_temporal_aggregation :
    (∀ (limit : ℚ) (drops : List Int),
      game_progress limit drops
        = ((drops.filter (fun d : Int => decide (limit * 100 < (d : ℚ)))).length,
           ((drops.filter (fun d : Int => decide (limit * 100 < (d : ℚ)))).map
             (fun d : Int => min d 1000)).sum)) ∧
    game_progress (3/2) [300, 1200] = (2, 1300) ∧
    daily_bump 7 2 1300 [] = [(7, ⟨1, 2, 1300⟩)] ∧
    day_avg ⟨1, 2, 1300⟩ = 13/2 ∧
    analyze_progress_over_time oracleC5 (3/2) [some gDated]
      = Outcome.report [(7, ⟨1, 2, 1300⟩, 13/2)] := by
  refine ⟨?_, ?_, by decide, ?_, ?_⟩
  · intro limit drops
    rw [game_progress, game_progress_go limit drops]
    simp
  · simp [game_progress, progress_step_three_halves]
    norm_num
  · norm_num [day_avg]
  · simp [analyze_progress_over_time, progress_daily, gDated, mkPly, oracleC5,
      progressLoop, progress_step_three_halves, daily_bump, sortByDayAsc,
      insertByDayAsc, day_avg]
    norm_num

/-- C6: in Time Analysis the previous-elapsed-seconds baseline is seeded
by the first successfully parsed clock sample and updated on every
subsequent sample regardless of sign, and spent is recorded exactly when
strictly positive: the recorded spends of a game are precisely the
positive differences of adjacent parsed samples. The sample sequence six
hundred, five hundred eighty, five hundred eighty five, five hundred sixty
yields exactly the spends twenty and twenty five, the negative step being
skipped while still replacing the baseline. -/
theorem c6_time_spend_recording :
    (∀ plies : List GamePly,
      (timeWalk plies none).map (fun r => r.secondsSpent)
        = adjacentDrops (plies.filterMap (fun q => parse_clock q.comment))) ∧
    (timeWalk [clkPly "%clk 10:00", clkPly "%clk 9:40", clkPly "%clk 9:45",
        clkPly "%clk 9:20"] none).map (fun r => r.secondsSpent) = [20, 25] := by
  refine ⟨timeWalk_spends_none, by decide⟩

/-- C7: clock parsing returns minutes times sixty plus seconds of the
clock token with sub-second precision discarded, and is absent when no
token is present or the numerics are malformed: the token with twelve
minutes and thirty four seconds parses to seven hundred fifty four, the
token with one minute and two point five seconds parses to sixty two, a
token with non-numeric fields is absent, and any comment without the token
is absent. -/
theorem c7_clock_parsing :
    parse_clock "%clk 12:34" = some 754 ∧
    parse_clock "%clk 1:02.5" = some 62 ∧
    parse_clock "%clk ab:cd" = none ∧
    ∀ s : String, containsClk s.data = false → parse_clock s = none := by
  refine ⟨by decide, by decide, by decide, ?_⟩
  intro s h
  rw [parse_clock, searchClk_eq_none_of_not_containsClk s.data h]
  rfl

theorem c7_clock_parsing_witness :
    containsClk ("no clock here").data = false ∧ parse_clock "no clock here" = none :=
  ⟨by decide, c7_clock_parsing.2.2.2 "no clock here" (by decide)⟩

/-- C8 counterexample: the claim states that every report method yields an
explicit no-data result on an empty corpus. Opening-issue detection does
not: its printing loop runs unconditionally, so on the empty corpus it
produces a report with zero entries and no no-data signal. -/
theorem c8_counterexample_opening_silent_empty :
    analyze_opening_issues (fun _ => some 0) 10 [] = Except.ok (Outcome.report []) ∧
    Outcome.report ([] : List (List Nat × Nat)) ≠ Outcome.noData := by
  refine ⟨rfl, by decide⟩

/-- C8 amended: every report method except opening-issue detection yields
an explicit no-data result on an empty corpus or empty sample set, and no
division by zero is performed: the time-analysis ratios are computed only
when its sample list is nonempty (their shared denominator), the
mistake and progress reports return the no-data signal when their
collections are empty, and total-time summarization of an empty corpus is
the explicit zero total; opening-issue detection instead emits an empty
report with no explicit signal. -/
theorem c8_no_data_amended :
    (∀ (files : List (Option GameRecord)) (topN : Nat),
      time_records files = [] → find_time_consuming_positions files topN = Outcome.noData) ∧
    (∀ (files : List (Option GameRecord)) (topN : Nat)
      (payload : List TimeRec × ℚ × ℚ × ℚ),
      find_time_consuming_positions files topN = Outcome.report payload →
        time_records files ≠ []) ∧
    (∀ (oracle : List Nat → Option Int) (limit : ℚ) (files : List (Option GameRecord)),
      find_common_mistakes oracle limit files = [] →
        find_common_mistakes_report oracle limit files = Outcome.noData) ∧
    (∀ (oracle : List Nat → Option Int) (limit : ℚ) (files : List (Option GameRecord)),
      progress_daily oracle limit files = [] →
        analyze_progress_over_time oracle limit files = Outcome.noData) ∧
    summarize_total_time_played [] = 0 := by
  refine ⟨?_, ?_, ?_, ?_, rfl⟩
  · intro files topN h
    simp [find_time_consuming_positions, h]
  · intro files topN payload h hempty
    simp [find_time_consuming_positions, hempty] at h
  · intro oracle limit files h
    simp [find_common_mistakes_report, h]
  · intro oracle limit files h
    simp [analyze_progress_over_time, h]

theorem c8_no_data_amended_witness :
    time_records [] = [] ∧ find_time_consuming_positions [] 5 = Outcome.noData :=
  ⟨rfl, c8_no_data_amended.1 [] 5 rfl⟩

/-- C9: for a fixed corpus (a fixed list of parse results) and a
deterministic oracle, two runs of the same analysis session produce
identical ranked and aggregated output: the session output is a function
of the corpus listing and the oracle alone, so runs with the same listing
and pointwise equal oracles coincide in every component. -/
theorem c9_session_determinism :
    ∀ (oracle1 oracle2 : List Nat → Option Int) (limit : ℚ) (topN moveLimit : Nat)
      (files1 files2 : List (Option GameRecord)),
      (∀ b, oracle1 b = oracle2 b) → files1 = files2 →
      analysis_session oracle1 limit topN moveLimit files1
        = analysis_session oracle2 limit topN moveLimit files2 := by
  intro oracle1 oracle2 limit topN moveLimit files1 files2 ho hf
  have he : oracle1 = oracle2 := funext ho
  rw [he, hf]

theorem c9_session_determinism_witness :
    analysis_session oracleW1 150 5 10 [] = analysis_session oracleW2 150 5 10 [] :=
  c9_session_determinism oracleW1 oracleW2 150 5 10 [] [] (fun _ => rfl) rfl

/-- C10: in total-time summarization a step contributes previous minus
current exactly when a previous sample exists, is strictly positive (the
Python truthiness test), and the current reading is strictly below it;
every parsed reading, including zero, becomes the new stored previous
value, and a stored previous value of exactly zero never contributes to
the next difference. The concrete sequence six hundred, zero, five
hundred, four hundred accumulates seven hundred seconds: the drop to zero
contributes six hundred, the step from the zero baseline contributes
nothing, and the final step contributes one hundred. -/
theorem c10_total_time_zero_baseline :
    (∀ (p total cur : Nat),
      timeStep (some p, total) cur
        = (some cur, if 0 < p ∧ cur < p then total + (p - cur) else total)) ∧
    (∀ (total cur : Nat), timeStep (none, total) cur = (some cur, total)) ∧
    (∀ (total cur : Nat), timeStep (some 0, total) cur = (some cur, total)) ∧
    totalSeconds [600, 0, 500, 400] = 700 := by
  refine ⟨?_, ?_, ?_, by decide⟩
  · intro p total cur
    show (some cur,
      if (p != 0) && decide (cur < p) then total + ((some p).getD 0 - cur) else total) = _
    by_cases hp : p = 0
    · subst hp; simp
    · by_cases hc : cur < p
      · simp [hp, hc, Nat.pos_of_ne_zero hp]
      · simp [hp, hc]
  · intro total cur; rfl
  · intro total cur; rfl
